import Mathlib

/-!
Shallow embedding of `src/server.py` (nasa_mcp): four fetch-normalize-envelope
adapters over dynamic JSON (`nasa_apod`, `nasa_donki_recent_events`,
`nasa_media_search`, `nasa_neows_feed`) plus the key provider `_key` and the
error normalizer `_err`.

Modelling conventions:
- Python JSON values are the inductive `Json`; numbers are modelled as
  rationals (floating point is out of scope for the claims under study,
  which only concern falsy/absent handling and string-to-number parsing).
- The HTTP helper `_get` is a parameter `fetch : FetchFn`; a raised Python
  exception is `Except.error (e : PyExc)` carrying the exception type name
  and message, so `str(e)` and `type(e).__name__` are `e.msg` and `e.kind`.
- The process environment is a parameter `Env := String → Option String`
  (`none` = variable unset).
- `datetime.date.today()` and `date.isoformat` in the DONKI adapter are
  ambient time, modelled as parameters `today : Int` (an ordinal day) and
  `iso : Int → String`.
- Each adapter is the Python `try: ... except Exception as e: return _err(e)`
  boundary: a total function returning the success envelope when its body
  (an `Except PyExc` computation) succeeds and `_err e` when it raises.
-/

/-- A JSON value as produced by `response.json()` in Python. -/
inductive Json where
  | null
  | bool (b : Bool)
  | num (q : ℚ)
  | str (s : String)
  | arr (elems : List Json)
  | obj (fields : List (String × Json))

/-- A Python exception: its type name (`type(e).__name__`) and message (`str(e)`). -/
structure PyExc where
  kind : String
  msg : String
deriving DecidableEq

/-- Python truthiness (`bool(x)`) for JSON values: None, False, 0, "", [], {}
are falsy, everything else truthy. -/
def Json.truthy : Json → Bool
  | .null => false
  | .bool b => b
  | .num q => decide (q ≠ 0)
  | .str s => decide (s ≠ "")
  | .arr xs => !xs.isEmpty
  | .obj fs => !fs.isEmpty

/-- Python `a or b`: the first operand when truthy, otherwise the second. -/
def pyOr (a b : Json) : Json := if a.truthy then a else b

/-- Python `d.get(k)`: `None` on a missing key; raises `AttributeError` when
the receiver is not a dict. -/
def Json.get : Json → String → Except PyExc Json
  | .obj fs, k => .ok ((fs.lookup k).getD .null)
  | _, _ => .error ⟨"AttributeError", "object has no attribute get"⟩

/-- Python `d.items()` on a dict; raises `AttributeError` otherwise. -/
def Json.items : Json → Except PyExc (List (String × Json))
  | .obj fs => .ok fs
  | _ => .error ⟨"AttributeError", "object has no attribute items"⟩

/-- Python iteration `for x in v`: lists yield elements, strings yield
one-character strings, dicts yield their keys; other values raise `TypeError`. -/
def pyIter : Json → Except PyExc (List Json)
  | .arr xs => .ok xs
  | .str s => .ok (s.toList.map (fun c => Json.str (String.singleton c)))
  | .obj fs => .ok (fs.map (fun p => Json.str p.fst))
  | _ => .error ⟨"TypeError", "object is not iterable"⟩

/-- Python `v[0]`: first element of a non-empty list or string; `KeyError` on a
dict without key 0; `IndexError` on empties; `TypeError` otherwise. -/
def pyIndex0 : Json → Except PyExc Json
  | .arr [] => .error ⟨"IndexError", "list index out of range"⟩
  | .arr (x :: _) => .ok x
  | .str s =>
    if s = "" then .error ⟨"IndexError", "string index out of range"⟩
    else .ok (.str (String.singleton (s.get 0)))
  | .obj _ => .error ⟨"KeyError", "0"⟩
  | _ => .error ⟨"TypeError", "object is not subscriptable"⟩

/-- Digits of a non-empty list of decimal digit characters, as a natural number. -/
def natOfDigits : List Char → Option Nat
  | [] => none
  | cs => cs.foldlM (fun acc c => if c.isDigit then some (acc * 10 + (c.toNat - 48)) else none) 0

/-- Unsigned decimal mantissa `digits[.digits]` (at least one digit), as a rational. -/
def parseUnsigned (cs : List Char) : Option ℚ :=
  match cs.span (fun c => c ≠ '.') with
  | (ip, rest) =>
    match rest with
    | [] => (natOfDigits ip).map (fun n => (n : ℚ))
    | _ :: fp =>
      if fp.contains '.' then none
      else if ip.isEmpty && fp.isEmpty then none
      else
        match (if ip.isEmpty then some 0 else natOfDigits ip),
              (if fp.isEmpty then some 0 else natOfDigits fp) with
        | some i, some f => some ((i : ℚ) + (f : ℚ) / (10 : ℚ) ^ fp.length)
        | _, _ => none

/-- Signed decimal mantissa. -/
def parseMant (cs : List Char) : Option ℚ :=
  match cs with
  | '+' :: r => parseUnsigned r
  | '-' :: r => (parseUnsigned r).map Neg.neg
  | r => parseUnsigned r

/-- Signed decimal exponent. -/
def parseExpInt (cs : List Char) : Option Int :=
  match cs with
  | '+' :: r => (natOfDigits r).map Int.ofNat
  | '-' :: r => (natOfDigits r).map (fun n => -(n : Int))
  | r => (natOfDigits r).map Int.ofNat

/-- Surrounding-whitespace strip, as `float(str)` performs before parsing. -/
def pyStrip (cs : List Char) : List Char :=
  ((cs.dropWhile Char.isWhitespace).reverse.dropWhile Char.isWhitespace).reverse

/-- Model of CPython `float(s)` on strings: optional surrounding whitespace,
sign, digits with optional fraction and optional decimal exponent, valued as an
exact rational (binary rounding, `inf`/`nan` and digit underscores are outside
the behaviour the claims touch). `none` models `ValueError`. -/
def parseDecimal (s : String) : Option ℚ :=
  match (pyStrip s.toList).span (fun c => c ≠ 'e' ∧ c ≠ 'E') with
  | (mant, rest) =>
    match rest with
    | [] => parseMant mant
    | _ :: ecs =>
      match parseMant mant, parseExpInt ecs with
      | some m, some e => some (m * (10 : ℚ) ^ e)
      | _, _ => none

/-- Python `float(x)` on a JSON value: numbers and booleans coerce, strings are
parsed (`ValueError` on failure), everything else raises `TypeError`. -/
def pyFloat : Json → Except PyExc ℚ
  | .num q => .ok q
  | .bool b => .ok (if b then 1 else 0)
  | .str s =>
    match parseDecimal s with
    | some q => .ok q
    | none => .error ⟨"ValueError", "could not convert string to float: " ++ s⟩
  | .null => .error ⟨"TypeError", "float() argument must be a string or a real number, not NoneType"⟩
  | _ => .error ⟨"TypeError", "float() argument must be a string or a real number"⟩

/-- Key lookup on a JSON object result (observation helper for theorems). -/
def Json.lookupKey : Json → String → Option Json
  | .obj fs, k => fs.lookup k
  | _, _ => none

/-- The keys of a JSON object, in order (observation helper for theorems). -/
def Json.keys : Json → List String
  | .obj fs => fs.map Prod.fst
  | _ => []

/-- The process environment: `none` models an unset variable. -/
def Env : Type := String → Option String

/-- The HTTP fetch helper `_get(url, params)` as seen by the adapters: either a
parsed JSON body or a raised exception (HTTP status error, network error, ...). -/
def FetchFn : Type := String → List (String × Json) → Except PyExc Json

/-- server.py `_key`: `os.getenv("NASA_API_KEY", "DEMO_KEY")` — the default is
used only when the variable is unset; a set-but-empty value is returned as is. -/
def _key (env : Env) : String := (env "NASA_API_KEY").getD "DEMO_KEY"

/-- server.py `_err`: ok False plus an error string of the form kind, colon, message, with the message str(e) replaced by the text Unknown error when empty. -/
def _err (e : PyExc) : Json :=
  .obj [("ok", .bool false), ("error", .str (e.kind ++ ": " ++ (if e.msg = "" then "Unknown error" else e.msg)))]

/-- Query parameters built by `nasa_apod`: `api_key` always, `date` when non-empty. -/
def apodParams (env : Env) (date : String) : List (String × Json) :=
  [("api_key", .str (_key env))] ++ (if date ≠ "" then [("date", .str date)] else [])

/-- The field projection of `nasa_apod` applied to the upstream JSON. -/
def apodTransform (data : Json) : Except PyExc Json := do
  let title ← data.get "title"
  let date' ← data.get "date"
  let mt ← data.get "media_type"
  let url ← data.get "url"
  let hd ← data.get "hdurl"
  let ex ← data.get "explanation"
  pure (Json.obj [("ok", .bool true), ("title", title), ("date", date'), ("media_type", mt),
    ("url", url), ("hdurl", hd), ("explanation", ex)])

/-- The `try`-block of `nasa_apod`. -/
def nasa_apod_body (env : Env) (fetch : FetchFn) (date : String) : Except PyExc Json := do
  let data ← fetch "https://api.nasa.gov/planetary/apod" (apodParams env date)
  apodTransform data

/-- server.py `nasa_apod`: the adapter with its `except Exception` boundary. -/
def nasa_apod (env : Env) (fetch : FetchFn) (date : String) : Json :=
  match nasa_apod_body env fetch date with
  | .ok v => v
  | .error e => _err e

/-- Python `str.upper()` for the ASCII identifiers this server handles. -/
def pyUpper (s : String) : String := String.mk (s.toList.map Char.toUpper)

/-- server.py line 154: `(event_type or "FLR").upper()` expanded to the list of
DONKI types to query (`"ALL"` fans out to the three base types). -/
def donkiTypes (event_type : String) : List String :=
  if pyUpper (if event_type ≠ "" then event_type else "FLR") = "ALL"
  then ["FLR", "CME", "GST"]
  else [pyUpper (if event_type ≠ "" then event_type else "FLR")]

/-- Query parameters built once per DONKI type. -/
def donkiParams (start_str end_str key : String) : List (String × Json) :=
  [("startDate", .str start_str), ("endDate", .str end_str), ("api_key", .str key)]

/-- The DONKI endpoint for one event type. -/
def donkiUrl (t : String) : String := "https://api.nasa.gov/DONKI/" ++ t

/-- The body of the DONKI per-raw-event loop (server.py lines 172-201): probe
alternately-named fields with `or`-chains and build the normalized event. -/
def donkiMapRaw (t : String) (raw : Json) : Except PyExc Json := do
  let i1 ← raw.get "flrID"
  let i2 ← raw.get "gstID"
  let i3 ← raw.get "cmeID"
  let i4 ← raw.get "activityID"
  let i5 ← raw.get "eventID"
  let s1 ← raw.get "beginTime"
  let s2 ← raw.get "startTime"
  let s3 ← raw.get "timeStart"
  let s4 ← raw.get "timeTag"
  let so1 ← raw.get "sourceLocation"
  let so2 ← raw.get "location"
  let so3 ← raw.get "source"
  let l1 ← raw.get "link"
  let l2 ← raw.get "url"
  pure (Json.obj [("type", .str t),
    ("id", pyOr (pyOr (pyOr (pyOr i1 i2) i3) i4) i5),
    ("start_time", pyOr (pyOr (pyOr s1 s2) s3) s4),
    ("source", pyOr (pyOr so1 so2) so3),
    ("link", pyOr l1 l2)])

/-- The DONKI fan-out loop (server.py lines 162-201): one fetch per type; a
non-list response skips that type (`continue`); anything raised propagates. -/
def donkiCollect (fetch : FetchFn) (key start_str end_str : String) :
    List String → Except PyExc (List Json)
  | [] => .ok []
  | t :: ts => do
    let data ← fetch (donkiUrl t) (donkiParams start_str end_str key)
    match data with
    | .arr raws => do
      let evs ← raws.mapM (donkiMapRaw t)
      let rest ← donkiCollect fetch key start_str end_str ts
      pure (evs ++ rest)
    | _ => donkiCollect fetch key start_str end_str ts

/-- The sort key of server.py line 205: `e.get("start_time") or ""`. Every
collected event is a dict with a `start_time` field, so the `AttributeError`
branch is unreachable on the lists this key is applied to. -/
def donkiKey (e : Json) : Json :=
  match e.get "start_time" with
  | .ok v => pyOr v (.str "")
  | .error _ => .str ""

/-- The sort key as a string. Python compares the raw key values; when a key is
a truthy non-string the comparison in Python can raise `TypeError`, a case the
theorems below exclude by hypothesis (string-or-falsy start times), under which
this projection agrees with Python exactly. -/
def donkiKeyStr (e : Json) : String :=
  match donkiKey e with
  | .str s => s
  | _ => ""

/-- Lexicographic less-or-equal on character lists by code point, the order
Python uses to compare `str` values. -/
def charListLe : List Char → List Char → Bool
  | [], _ => true
  | _ :: _, [] => false
  | a :: as, b :: bs => if a.toNat = b.toNat then charListLe as bs else decide (a.toNat < b.toNat)

/-- Python `a <= b` on strings. -/
def strLe (a b : String) : Bool := charListLe a.toList b.toList

/-- Stable insertion into a descending-by-key list, placing the new element
before the first existing element whose key is not greater. -/
def insertDesc (e : Json) : List Json → List Json
  | [] => [e]
  | x :: xs => if strLe (donkiKeyStr x) (donkiKeyStr e) then e :: x :: xs else x :: insertDesc e xs

/-- Model of `sorted(events, key=lambda e: e.get("start_time") or "", reverse=True)`:
a stable sort, descending by key. -/
def sortDesc : List Json → List Json
  | [] => []
  | x :: xs => insertDesc x (sortDesc xs)

/-- The success envelope of `nasa_donki_recent_events` (server.py lines 203-217):
sort, then cap (`events_sorted[:limit]`), with `count = len(events_limited)`. -/
def mkDonkiSuccess (ss es : String) (types : List String) (limit : Int)
    (events : List Json) : Json :=
  .obj [("ok", .bool true),
    ("range", .obj [("start_date", .str ss), ("end_date", .str es)]),
    ("event_types", .arr (types.map Json.str)),
    ("count", .num ((((sortDesc events).take limit.toNat).length : ℚ))),
    ("events", .arr ((sortDesc events).take limit.toNat))]

/-- The `try`-block of `nasa_donki_recent_events`. The parameter reassignments
`days = max(int(days), 1)` and `limit = max(int(limit), 1)` appear as the
`max _ 1` arguments; `start = date.today() - timedelta(days=days)` is
`today - max days 1` rendered through `iso`. -/
def nasa_donki_recent_events_body (env : Env) (fetch : FetchFn) (iso : Int → String)
    (today : Int) (event_type : String) (days limit : Int) : Except PyExc Json :=
  Except.map
    (mkDonkiSuccess (iso (today - max days 1)) (iso today) (donkiTypes event_type) (max limit 1))
    (donkiCollect fetch (_key env) (iso (today - max days 1)) (iso today) (donkiTypes event_type))

/-- server.py `nasa_donki_recent_events`: the adapter with its exception boundary. -/
def nasa_donki_recent_events (env : Env) (fetch : FetchFn) (iso : Int → String)
    (today : Int) (event_type : String) (days limit : Int) : Json :=
  match nasa_donki_recent_events_body env fetch iso today event_type days limit with
  | .ok v => v
  | .error e => _err e

/-- Query parameters built by `nasa_media_search` (server.py lines 280-288),
with the already-clamped page number. -/
def mediaParams (query media_type : String) (year_start year_end : Option Int)
    (page : Int) : List (String × Json) :=
  [("q", .str query), ("media_type", .str media_type), ("page", .num (page : ℚ))]
  ++ (match year_start with | some y => [("year_start", Json.num (y : ℚ))] | none => [])
  ++ (match year_end with | some y => [("year_end", Json.num (y : ℚ))] | none => [])

/-- The preview-link scan of `nasa_media_search` (server.py lines 299-304):
the first truthy `href` among the link entries, else None. -/
def firstHref : List Json → Except PyExc Json
  | [] => .ok .null
  | ln :: rest => do
    let href ← ln.get "href"
    if href.truthy then pure href else firstHref rest

/-- The per-item mapping of `nasa_media_search` (server.py lines 295-315). -/
def mediaMapItem (it : Json) : Except PyExc Json := do
  let dv ← it.get "data"
  let data_block ← pyIndex0 (pyOr dv (.arr [Json.obj []]))
  let lv ← it.get "links"
  let links_block ← pyIter (pyOr lv (.arr []))
  let preview ← firstHref links_block
  let nid ← data_block.get "nasa_id"
  let title ← data_block.get "title"
  let mt ← data_block.get "media_type"
  let dc ← data_block.get "date_created"
  let desc ← data_block.get "description"
  pure (Json.obj [("nasa_id", nid), ("title", title), ("media_type", mt),
    ("date_created", dc), ("description", desc), ("preview", preview)])

/-- The success envelope of `nasa_media_search` (server.py lines 317-324). -/
def mkMediaSuccess (query media_type : String) (page : Int) (items : List Json) : Json :=
  .obj [("ok", .bool true), ("query", .str query), ("media_type", .str media_type),
    ("page", .num (page : ℚ)), ("count", .num (items.length : ℚ)), ("items", .arr items)]

/-- The `try`-block of `nasa_media_search` (the images API takes no key, so the
environment is not consulted); `page = max(int(page), 1)` appears as the
`max page 1` arguments. -/
def nasa_media_search_body (fetch : FetchFn) (query media_type : String)
    (year_start year_end : Option Int) (page : Int) : Except PyExc Json := do
  let data ← fetch "https://images-api.nasa.gov/search"
    (mediaParams query media_type year_start year_end (max page 1))
  let cv ← data.get "collection"
  let iv ← (pyOr cv (.obj [])).get "items"
  let raw_items ← pyIter (pyOr iv (.arr []))
  let items ← raw_items.mapM mediaMapItem
  pure (mkMediaSuccess query media_type (max page 1) items)

/-- server.py `nasa_media_search`: the adapter with its exception boundary. -/
def nasa_media_search (fetch : FetchFn) (query media_type : String)
    (year_start year_end : Option Int) (page : Int) : Json :=
  match nasa_media_search_body fetch query media_type year_start year_end page with
  | .ok v => v
  | .error e => _err e

/-- Query parameters built by `nasa_neows_feed` (server.py line 391). -/
def neoParams (env : Env) (start_date end_date : String) : List (String × Json) :=
  [("start_date", .str start_date), ("end_date", .str end_date), ("api_key", .str (_key env))]

/-- server.py line 404: `ca = (obj.get("close_approach_data") or [{}])[0] or {}`. -/
def neoCa (obj : Json) : Except PyExc Json := do
  let c ← obj.get "close_approach_data"
  let first ← pyIndex0 (pyOr c (.arr [Json.obj []]))
  pure (pyOr first (.obj []))

/-- server.py line 405: `miss = (ca.get("miss_distance") or {}).get("kilometers")`. -/
def neoMissRaw (ca : Json) : Except PyExc Json := do
  let md ← ca.get "miss_distance"
  (pyOr md (.obj [])).get "kilometers"

/-- server.py line 406: `vel = (ca.get("relative_velocity") or {}).get("kilometers_per_hour")`. -/
def neoVelRaw (ca : Json) : Except PyExc Json := do
  let rv ← ca.get "relative_velocity"
  (pyOr rv (.obj [])).get "kilometers_per_hour"

/-- server.py lines 417-418: `float(x) if x else None` — the parse only runs on
truthy values; falsy values yield None, never 0.0. -/
def neoNumOrNull (x : Json) : Except PyExc Json :=
  if x.truthy then Except.map Json.num (pyFloat x) else pure Json.null

/-- One iteration of the inner NEO loop (server.py lines 398-421): skip the
object when the hazardous filter rejects it, otherwise emit one flattened item. -/
def neoFlattenObj (hz : Bool) (d : String) (obj : Json) : Except PyExc (List Json) := do
  let ish ← obj.get "is_potentially_hazardous_asteroid"
  if hz && !ish.truthy then pure []
  else do
    let ed ← obj.get "estimated_diameter"
    let mm ← (pyOr ed (.obj [])).get "meters"
    let ca ← neoCa obj
    let miss ← neoMissRaw ca
    let vel ← neoVelRaw ca
    let name ← obj.get "name"
    let dmin ← (pyOr mm (.obj [])).get "estimated_diameter_min"
    let dmax ← (pyOr mm (.obj [])).get "estimated_diameter_max"
    let cad ← ca.get "close_approach_date"
    let missV ← neoNumOrNull miss
    let velV ← neoNumOrNull vel
    let url ← obj.get "nasa_jpl_url"
    pure [Json.obj [("name", name),
      ("is_potentially_hazardous", .bool ish.truthy),
      ("estimated_diameter_m", .obj [("min", dmin), ("max", dmax)]),
      ("close_approach_date", pyOr cad (.str d)),
      ("miss_distance_km", missV),
      ("relative_velocity_kmh", velV),
      ("nasa_jpl_url", url)]]

/-- The inner loop `for obj in arr or []` over one date's objects. -/
def neoFlattenDate (hz : Bool) (d : String) : List Json → Except PyExc (List Json)
  | [] => .ok []
  | o :: os => do
    let x ← neoFlattenObj hz d o
    let rest ← neoFlattenDate hz d os
    pure (x ++ rest)

/-- The outer loop `for d, arr in neo_by_date.items()` (server.py lines 397-421). -/
def neoFlatten (hz : Bool) : List (String × Json) → Except PyExc (List Json)
  | [] => .ok []
  | (d, arrv) :: rest => do
    let objs ← pyIter (pyOr arrv (.arr []))
    let here ← neoFlattenDate hz d objs
    let more ← neoFlatten hz rest
    pure (here ++ more)

/-- The flattened, hazardous-filtered object list of one `nasa_neows_feed` call:
fetch, default the by-date mapping, iterate its items. -/
def neoFlatOf (env : Env) (fetch : FetchFn) (start_date end_date : String)
    (hz : Bool) : Except PyExc (List Json) := do
  let data ← fetch "https://api.nasa.gov/neo/rest/v1/feed" (neoParams env start_date end_date)
  let nb ← data.get "near_earth_objects"
  let pairs ← (pyOr nb (.obj [])).items
  neoFlatten hz pairs

/-- The success envelope of `nasa_neows_feed` (server.py lines 423-429):
`count = len(flat)` before truncation, `items = flat[: max(1, limit)]`. -/
def mkNeoSuccess (start_date end_date : String) (hz : Bool) (limit : Int)
    (flat : List Json) : Json :=
  .obj [("ok", .bool true),
    ("range", .obj [("start_date", .str start_date), ("end_date", .str end_date)]),
    ("hazardous_only", .bool hz),
    ("count", .num (flat.length : ℚ)),
    ("items", .arr (flat.take (max 1 limit).toNat))]

/-- The `try`-block of `nasa_neows_feed`. -/
def nasa_neows_feed_body (env : Env) (fetch : FetchFn) (start_date end_date : String)
    (hz : Bool) (limit : Int) : Except PyExc Json :=
  Except.map (mkNeoSuccess start_date end_date hz limit) (neoFlatOf env fetch start_date end_date hz)

/-- server.py `nasa_neows_feed`: the adapter with its exception boundary. -/
def nasa_neows_feed (env : Env) (fetch : FetchFn) (start_date end_date : String)
    (hz : Bool) (limit : Int) : Json :=
  match nasa_neows_feed_body env fetch start_date end_date hz limit with
  | .ok v => v
  | .error e => _err e

/-- Observation helper: the `items` field of a result, as a list. -/
def itemsList (r : Json) : List Json :=
  match r.lookupKey "items" with
  | some (.arr l) => l
  | _ => []

/-- Observation helper: the `events` field of a result, as a list. -/
def eventsList (r : Json) : List Json :=
  match r.lookupKey "events" with
  | some (.arr l) => l
  | _ => []

/-- Destructing a successful monadic bind in `Except PyExc`. -/
theorem except_bind_ok {α β : Type} {x : Except PyExc α} {f : α → Except PyExc β} {b : β}
    (h : (x >>= f) = .ok b) : ∃ a, x = .ok a ∧ f a = .ok b := by
  cases x with
  | error e => exact Except.noConfusion h
  | ok a => exact ⟨a, rfl, h⟩

/-- Destructing a successful `Except.map`. -/
theorem except_map_ok {α β : Type} {f : α → β} {x : Except PyExc α} {b : β}
    (h : Except.map f x = .ok b) : ∃ a, x = .ok a ∧ b = f a := by
  cases x with
  | error e => exact Except.noConfusion h
  | ok a => exact ⟨a, rfl, (Except.ok.inj h).symm⟩

/-- Any successful `apodTransform` value is the APOD success envelope shape. -/
theorem apodTransform_ok {data v : Json} (h : apodTransform data = .ok v) :
    ∃ t d m u hd ex, v = Json.obj [("ok", .bool true), ("title", t), ("date", d),
      ("media_type", m), ("url", u), ("hdurl", hd), ("explanation", ex)] := by
  cases data with
  | obj fs =>
    refine ⟨(fs.lookup "title").getD .null, (fs.lookup "date").getD .null,
      (fs.lookup "media_type").getD .null, (fs.lookup "url").getD .null,
      (fs.lookup "hdurl").getD .null, (fs.lookup "explanation").getD .null, ?_⟩
    exact (Except.ok.inj h).symm
  | null => exact Except.noConfusion h
  | bool b => exact Except.noConfusion h
  | num q => exact Except.noConfusion h
  | str s => exact Except.noConfusion h
  | arr xs => exact Except.noConfusion h

/-- The success-payload field names documented for `nasa_apod`. -/
def apodKeys : List String := ["title", "date", "media_type", "url", "hdurl", "explanation"]

/-- The success-payload field names documented for `nasa_donki_recent_events`. -/
def donkiKeys : List String := ["range", "event_types", "count", "events"]

/-- The success-payload field names documented for `nasa_media_search`. -/
def mediaKeys : List String := ["query", "media_type", "page", "count", "items"]

/-- The success-payload field names documented for `nasa_neows_feed`. -/
def neoKeys : List String := ["range", "hazardous_only", "count", "items"]

/-- The envelope invariant: either `ok` is true and the keys are exactly `ok`
followed by the documented success fields (so no `error` field), or `ok` is
false and the keys are exactly `ok` and `error` (so no success field). -/
def envelopeBranches (r : Json) (successKeys : List String) : Prop :=
  (r.keys = "ok" :: successKeys ∧ r.lookupKey "ok" = some (Json.bool true))
  ∨ (r.keys = ["ok", "error"] ∧ r.lookupKey "ok" = some (Json.bool false))

/-- Any successful DONKI body is the DONKI success envelope over the collected
events. -/
theorem donki_body_ok {env : Env} {fetch : FetchFn} {iso : Int → String} {today : Int}
    {et : String} {days limit : Int} {v : Json}
    (h : nasa_donki_recent_events_body env fetch iso today et days limit = .ok v) :
    ∃ evs, donkiCollect fetch (_key env) (iso (today - max days 1)) (iso today) (donkiTypes et) = .ok evs
      ∧ v = mkDonkiSuccess (iso (today - max days 1)) (iso today) (donkiTypes et) (max limit 1) evs := by
  unfold nasa_donki_recent_events_body at h
  obtain ⟨evs, h1, h2⟩ := except_map_ok h
  exact ⟨evs, h1, h2⟩

/-- Any successful NEO body is the NEO success envelope over the flattened list. -/
theorem neo_body_ok {env : Env} {fetch : FetchFn} {sd ed : String} {hz : Bool}
    {limit : Int} {v : Json}
    (h : nasa_neows_feed_body env fetch sd ed hz limit = .ok v) :
    ∃ flat, neoFlatOf env fetch sd ed hz = .ok flat ∧ v = mkNeoSuccess sd ed hz limit flat := by
  unfold nasa_neows_feed_body at h
  obtain ⟨flat, h1, h2⟩ := except_map_ok h
  exact ⟨flat, h1, h2⟩

/-- Any successful media-search body is the media success envelope over the
mapped items. -/
theorem media_body_ok {fetch : FetchFn} {q mt : String} {ys ye : Option Int}
    {p : Int} {v : Json}
    (h : nasa_media_search_body fetch q mt ys ye p = .ok v) :
    ∃ items, v = mkMediaSuccess q mt (max p 1) items := by
  unfold nasa_media_search_body at h
  obtain ⟨data, _, h⟩ := except_bind_ok h
  obtain ⟨cv, _, h⟩ := except_bind_ok h
  obtain ⟨iv, _, h⟩ := except_bind_ok h
  obtain ⟨raw, _, h⟩ := except_bind_ok h
  obtain ⟨items, _, h⟩ := except_bind_ok h
  exact ⟨items, (Except.ok.inj h).symm⟩

/-- C1: For every adapter (nasa_apod, nasa_donki_recent_events,
nasa_media_search, nasa_neows_feed) and every input and upstream response, the
returned dictionary contains exactly one of the two branches: either `ok` is
true and the documented success payload fields are present with no `error`
field, or `ok` is false and an `error` field is present with no success payload
fields; the `ok` flag always matches which branch is populated. (Stated as: the
key set is exactly `ok`-plus-success-fields with `ok = true`, or exactly
`ok, error` with `ok = false`; the listed success key sets omit `error`.) -/
theorem c1_envelope_exclusive (env : Env) (fetch : FetchFn) (iso : Int → String)
    (today : Int) (date event_type : String) (days limit : Int)
    (query media_type : String) (year_start year_end : Option Int) (page : Int)
    (start_date end_date : String) (hz : Bool) (nlimit : Int) :
    envelopeBranches (nasa_apod env fetch date) apodKeys
    ∧ envelopeBranches (nasa_donki_recent_events env fetch iso today event_type days limit) donkiKeys
    ∧ envelopeBranches (nasa_media_search fetch query media_type year_start year_end page) mediaKeys
    ∧ envelopeBranches (nasa_neows_feed env fetch start_date end_date hz nlimit) neoKeys
    ∧ "error" ∉ apodKeys ∧ "error" ∉ donkiKeys ∧ "error" ∉ mediaKeys ∧ "error" ∉ neoKeys := by
  refine ⟨?_, ?_, ?_, ?_, by decide, by decide, by decide, by decide⟩
  · cases h : nasa_apod_body env fetch date with
    | error e =>
      have hr : nasa_apod env fetch date = _err e := by unfold nasa_apod; rw [h]
      rw [hr]; exact Or.inr ⟨rfl, rfl⟩
    | ok v =>
      have hr : nasa_apod env fetch date = v := by unfold nasa_apod; rw [h]
      unfold nasa_apod_body at h
      obtain ⟨data, _, ht⟩ := except_bind_ok h
      obtain ⟨t, d, m, u, hd2, ex, rfl⟩ := apodTransform_ok ht
      rw [hr]; exact Or.inl ⟨rfl, rfl⟩
  · cases h : nasa_donki_recent_events_body env fetch iso today event_type days limit with
    | error e =>
      have hr : nasa_donki_recent_events env fetch iso today event_type days limit = _err e := by
        unfold nasa_donki_recent_events; rw [h]
      rw [hr]; exact Or.inr ⟨rfl, rfl⟩
    | ok v =>
      have hr : nasa_donki_recent_events env fetch iso today event_type days limit = v := by
        unfold nasa_donki_recent_events; rw [h]
      obtain ⟨evs, _, rfl⟩ := donki_body_ok h
      rw [hr]; exact Or.inl ⟨rfl, rfl⟩
  · cases h : nasa_media_search_body fetch query media_type year_start year_end page with
    | error e =>
      have hr : nasa_media_search fetch query media_type year_start year_end page = _err e := by
        unfold nasa_media_search; rw [h]
      rw [hr]; exact Or.inr ⟨rfl, rfl⟩
    | ok v =>
      have hr : nasa_media_search fetch query media_type year_start year_end page = v := by
        unfold nasa_media_search; rw [h]
      obtain ⟨items, rfl⟩ := media_body_ok h
      rw [hr]; exact Or.inl ⟨rfl, rfl⟩
  · cases h : nasa_neows_feed_body env fetch start_date end_date hz nlimit with
    | error e =>
      have hr : nasa_neows_feed env fetch start_date end_date hz nlimit = _err e := by
        unfold nasa_neows_feed; rw [h]
      rw [hr]; exact Or.inr ⟨rfl, rfl⟩
    | ok v =>
      have hr : nasa_neows_feed env fetch start_date end_date hz nlimit = v := by
        unfold nasa_neows_feed; rw [h]
      obtain ⟨flat, _, rfl⟩ := neo_body_ok h
      rw [hr]; exact Or.inl ⟨rfl, rfl⟩

/-- Fixture: an environment with no variables set. -/
def env0 : Env := fun _ => none

/-- Fixture: an environment where `NASA_API_KEY` is set to the empty string. -/
def envEmptyKey : Env := fun k => if k = "NASA_API_KEY" then some "" else none

/-- Fixture: an upstream that fails every request with an HTTP 404 status error,
as `httpx.Response.raise_for_status` raises it. -/
def fetch404 : FetchFn := fun _ _ => .error ⟨"HTTPStatusError", "Client error 404 Not Found"⟩

/-- Fixture: an upstream that fails every request with an empty-message error. -/
def fetchBlankErr : FetchFn := fun _ _ => .error ⟨"ValueError", ""⟩

/-- Fixture: an identity-style rendering of ordinal days for the DONKI date
parameters. -/
def iso0 : Int → String := fun n => toString n

/-- C2: For every adapter and every exception raised anywhere inside its body
(including HTTP errors from the fetch helper and transformation failures), the
adapter never propagates the exception; it returns `{ok: false, error: s}` with
`s = "<exception kind>: <message>"`, where an empty message is replaced by
"Unknown error". (The adapters are total functions of the raised exception, so
nothing propagates by construction; this pins the returned envelope.) -/
theorem c2_exception_envelope (env : Env) (fetch : FetchFn) (iso : Int → String)
    (today : Int) (date event_type : String) (days limit : Int)
    (query media_type : String) (year_start year_end : Option Int) (page : Int)
    (start_date end_date : String) (hz : Bool) (nlimit : Int) (e : PyExc) :
    (nasa_apod_body env fetch date = .error e →
      nasa_apod env fetch date
        = .obj [("ok", .bool false), ("error", .str (e.kind ++ ": " ++ (if e.msg = "" then "Unknown error" else e.msg)))])
    ∧ (nasa_donki_recent_events_body env fetch iso today event_type days limit = .error e →
      nasa_donki_recent_events env fetch iso today event_type days limit
        = .obj [("ok", .bool false), ("error", .str (e.kind ++ ": " ++ (if e.msg = "" then "Unknown error" else e.msg)))])
    ∧ (nasa_media_search_body fetch query media_type year_start year_end page = .error e →
      nasa_media_search fetch query media_type year_start year_end page
        = .obj [("ok", .bool false), ("error", .str (e.kind ++ ": " ++ (if e.msg = "" then "Unknown error" else e.msg)))])
    ∧ (nasa_neows_feed_body env fetch start_date end_date hz nlimit = .error e →
      nasa_neows_feed env fetch start_date end_date hz nlimit
        = .obj [("ok", .bool false), ("error", .str (e.kind ++ ": " ++ (if e.msg = "" then "Unknown error" else e.msg)))]) := by
  refine ⟨fun h => ?_, fun h => ?_, fun h => ?_, fun h => ?_⟩
  · unfold nasa_apod; rw [h]; rfl
  · unfold nasa_donki_recent_events; rw [h]; rfl
  · unfold nasa_media_search; rw [h]; rfl
  · unfold nasa_neows_feed; rw [h]; rfl

/-- Witness for C2: a concrete HTTP 404 from the fetch helper yields the error
envelope in all four adapters, and an empty exception message yields
"Unknown error". -/
theorem c2_witness :
    nasa_apod env0 fetch404 ""
      = Json.obj [("ok", .bool false), ("error", .str "HTTPStatusError: Client error 404 Not Found")]
    ∧ nasa_donki_recent_events env0 fetch404 iso0 0 "FLR" 3 20
      = Json.obj [("ok", .bool false), ("error", .str "HTTPStatusError: Client error 404 Not Found")]
    ∧ nasa_media_search fetch404 "moon" "image" none none 1
      = Json.obj [("ok", .bool false), ("error", .str "HTTPStatusError: Client error 404 Not Found")]
    ∧ nasa_neows_feed env0 fetch404 "2024-01-01" "2024-01-02" false 20
      = Json.obj [("ok", .bool false), ("error", .str "HTTPStatusError: Client error 404 Not Found")]
    ∧ nasa_apod env0 fetchBlankErr ""
      = Json.obj [("ok", .bool false), ("error", .str "ValueError: Unknown error")] := by
  have h1 := (c2_exception_envelope env0 fetch404 iso0 0 "" "FLR" 3 20 "moon" "image" none none 1
    "2024-01-01" "2024-01-02" false 20 ⟨"HTTPStatusError", "Client error 404 Not Found"⟩)
  have h2 := (c2_exception_envelope env0 fetchBlankErr iso0 0 "" "FLR" 3 20 "moon" "image" none none 1
    "2024-01-01" "2024-01-02" false 20 ⟨"ValueError", ""⟩)
  exact ⟨h1.1 rfl, h1.2.1 rfl, h1.2.2.1 rfl, h1.2.2.2 rfl, h2.1 rfl⟩

/-- Counterexample for C7: with `NASA_API_KEY` set to the empty string the key
provider returns the empty string, not the fallback literal, so the returned
string is empty and differs from `DEMO_KEY`. -/
theorem c7_counterexample :
    _key envEmptyKey = "" ∧ ("" : String) ≠ "DEMO_KEY" := ⟨rfl, by decide⟩

/-- C7 amended: the key provider returns the fixed fallback literal exactly when
the environment variable is unset; when the variable is set — including to the
empty string — its value is returned unmodified (so the result can be empty). -/
theorem c7_key_provider_amended (env : Env) :
    (env "NASA_API_KEY" = none → _key env = "DEMO_KEY")
    ∧ (∀ v, env "NASA_API_KEY" = some v → _key env = v) := by
  constructor
  · intro h; unfold _key; rw [h]; rfl
  · intro v h; unfold _key; rw [h]; rfl

/-- Witness for C7 amended: an unset variable yields the fallback; a variable
set to the empty string yields the empty string. -/
theorem c7_witness : _key env0 = "DEMO_KEY" ∧ _key envEmptyKey = "" :=
  ⟨(c7_key_provider_amended env0).1 rfl, (c7_key_provider_amended envEmptyKey).2 "" rfl⟩

/-- The descending-by-start-time order the DONKI events are returned in. -/
def eventsSortedDesc (l : List Json) : Prop :=
  List.Sorted (fun a b => strLe (donkiKeyStr b) (donkiKeyStr a) = true) l

/-- Boolean test that a value is a string or falsy — the cases in which Python
comparison of the DONKI sort keys cannot raise and agrees with `donkiKeyStr`. -/
def strOrFalsy (j : Json) : Bool :=
  match j with
  | .str _ => true
  | _ => !j.truthy

/-- Totality of the code-point order on character lists. -/
theorem charListLe_total (a : List Char) :
    ∀ b, charListLe a b = true ∨ charListLe b a = true := by
  induction a with
  | nil => intro b; left; rfl
  | cons x xs ih =>
    intro b
    cases b with
    | nil => right; rfl
    | cons y ys =>
      by_cases hxy : x.toNat = y.toNat
      · have hyx : y.toNat = x.toNat := hxy.symm
        rcases ih ys with h | h
        · left; simp [charListLe, hxy, h]
        · right; simp [charListLe, hyx, h]
      · have hyx : ¬ y.toNat = x.toNat := fun hh => hxy hh.symm
        rcases Nat.lt_or_ge x.toNat y.toNat with h | h
        · left; simp [charListLe, hxy, h]
        · right
          have : y.toNat < x.toNat := by omega
          simp [charListLe, hyx, this]

/-- Transitivity of the code-point order on character lists. -/
theorem charListLe_trans (a : List Char) :
    ∀ b c, charListLe a b = true → charListLe b c = true → charListLe a c = true := by
  induction a with
  | nil => intro b c _ _; rfl
  | cons x xs ih =>
    intro b c hab hbc
    cases b with
    | nil => simp [charListLe] at hab
    | cons y ys =>
      cases c with
      | nil => simp [charListLe] at hbc
      | cons z zs =>
        simp only [charListLe] at hab hbc ⊢
        by_cases h1 : x.toNat = y.toNat
        · by_cases h2 : y.toNat = z.toNat
          · rw [if_pos h1] at hab
            rw [if_pos h2] at hbc
            rw [if_pos (h1.trans h2)]
            exact ih ys zs hab hbc
          · rw [if_pos h1] at hab
            rw [if_neg h2] at hbc
            have hyz := of_decide_eq_true hbc
            have h3 : ¬ x.toNat = z.toNat := by omega
            rw [if_neg h3]
            exact decide_eq_true (by omega)
        · by_cases h2 : y.toNat = z.toNat
          · rw [if_neg h1] at hab
            have hxy := of_decide_eq_true hab
            have h3 : ¬ x.toNat = z.toNat := by omega
            rw [if_neg h3]
            exact decide_eq_true (by omega)
          · rw [if_neg h1] at hab
            rw [if_neg h2] at hbc
            have hxy := of_decide_eq_true hab
            have hyz := of_decide_eq_true hbc
            have h3 : ¬ x.toNat = z.toNat := by omega
            rw [if_neg h3]
            exact decide_eq_true (by omega)

/-- Totality of the Python string order. -/
theorem strLe_total (a b : String) : strLe a b = true ∨ strLe b a = true :=
  charListLe_total a.toList b.toList

/-- Transitivity of the Python string order. -/
theorem strLe_trans {a b c : String} (h1 : strLe a b = true) (h2 : strLe b c = true) :
    strLe a c = true :=
  charListLe_trans a.toList b.toList c.toList h1 h2

/-- Membership in an insertion. -/
theorem mem_insertDesc {e x : Json} {l : List Json} :
    x ∈ insertDesc e l ↔ x = e ∨ x ∈ l := by
  induction l with
  | nil => simp [insertDesc]
  | cons y ys ih =>
    by_cases hc : strLe (donkiKeyStr y) (donkiKeyStr e) = true
    · simp [insertDesc, hc]
    · simp only [insertDesc, if_neg hc, List.mem_cons, ih]
      tauto

/-- Insertion preserves the descending order. -/
theorem insertDesc_sorted {e : Json} {l : List Json} (h : eventsSortedDesc l) :
    eventsSortedDesc (insertDesc e l) := by
  induction l with
  | nil => simp [insertDesc, eventsSortedDesc]
  | cons x xs ih =>
    have hx := (List.sorted_cons.mp h).1
    have hxs := (List.sorted_cons.mp h).2
    by_cases hc : strLe (donkiKeyStr x) (donkiKeyStr e) = true
    · unfold eventsSortedDesc
      rw [insertDesc, if_pos hc]
      refine List.sorted_cons.mpr ⟨?_, h⟩
      intro b hb
      rcases List.mem_cons.mp hb with rfl | hb
      · exact hc
      · exact strLe_trans (hx b hb) hc
    · unfold eventsSortedDesc
      rw [insertDesc, if_neg hc]
      refine List.sorted_cons.mpr ⟨?_, ih hxs⟩
      intro b hb
      rcases mem_insertDesc.mp hb with rfl | hb
      · rcases strLe_total (donkiKeyStr x) (donkiKeyStr b) with h1 | h1
        · exact absurd h1 hc
        · exact h1
      · exact hx b hb

/-- The sort produces a descending list. -/
theorem sortDesc_sorted (l : List Json) : eventsSortedDesc (sortDesc l) := by
  induction l with
  | nil => simp [sortDesc, eventsSortedDesc]
  | cons x xs ih => exact insertDesc_sorted ih

/-- Insertion is a permutation of consing. -/
theorem insertDesc_perm (e : Json) (l : List Json) : List.Perm (insertDesc e l) (e :: l) := by
  induction l with
  | nil => rfl
  | cons x xs ih =>
    by_cases hc : strLe (donkiKeyStr x) (donkiKeyStr e) = true
    · rw [insertDesc, if_pos hc]
    · rw [insertDesc, if_neg hc]
      exact (ih.cons x).trans (List.Perm.swap e x xs)

/-- The sort permutes its input. -/
theorem sortDesc_perm (l : List Json) : List.Perm (sortDesc l) l := by
  induction l with
  | nil => rfl
  | cons x xs ih => exact (insertDesc_perm x (sortDesc xs)).trans (ih.cons x)

/-- The sort preserves length. -/
theorem sortDesc_length (l : List Json) : (sortDesc l).length = l.length :=
  (sortDesc_perm l).length_eq

/-- A falsy sort key renders as the empty string — the "null/missing sorted as
empty string" part of the DONKI contract. -/
theorem donkiKeyStr_of_falsy {e : Json} (h : (donkiKey e).truthy = false) :
    donkiKeyStr e = "" := by
  unfold donkiKeyStr
  cases hk : donkiKey e with
  | str s =>
    rw [hk] at h
    simpa [Json.truthy] using h
  | null => rfl
  | bool b => rfl
  | num q => rfl
  | arr xs => rfl
  | obj fs => rfl

/-- The error envelope never reports `ok = true`. -/
theorem not_ok_err {e : PyExc} (h : (_err e).lookupKey "ok" = some (Json.bool true)) : False := by
  have h2 : Json.bool false = Json.bool true := Option.some.inj h
  exact Bool.noConfusion (Json.bool.inj h2)

/-- Any successful `neoFlattenObj` yields either nothing (filtered out) or the
one flattened item, whose parts are the intermediate extractions. -/
theorem neoFlattenObj_ok_shape {hz : Bool} {d : String} {o : Json} {l : List Json}
    (h : neoFlattenObj hz d o = .ok l) :
    l = [] ∨ ∃ ish ca miss vel name dmin dmax cad missV velV url,
      o.get "is_potentially_hazardous_asteroid" = .ok ish
      ∧ (hz && !ish.truthy) = false
      ∧ neoCa o = .ok ca
      ∧ neoMissRaw ca = .ok miss
      ∧ neoVelRaw ca = .ok vel
      ∧ neoNumOrNull miss = .ok missV
      ∧ neoNumOrNull vel = .ok velV
      ∧ l = [Json.obj [("name", name),
          ("is_potentially_hazardous", .bool ish.truthy),
          ("estimated_diameter_m", .obj [("min", dmin), ("max", dmax)]),
          ("close_approach_date", pyOr cad (.str d)),
          ("miss_distance_km", missV),
          ("relative_velocity_kmh", velV),
          ("nasa_jpl_url", url)]] := by
  unfold neoFlattenObj at h
  obtain ⟨ish, hish, h⟩ := except_bind_ok h
  by_cases hc : (hz && !ish.truthy) = true
  · rw [if_pos hc] at h
    left
    exact (Except.ok.inj h).symm
  · rw [if_neg hc] at h
    obtain ⟨ed, hed, h⟩ := except_bind_ok h
    obtain ⟨mm, hmm, h⟩ := except_bind_ok h
    obtain ⟨ca, hca, h⟩ := except_bind_ok h
    obtain ⟨miss, hm, h⟩ := except_bind_ok h
    obtain ⟨vel, hv, h⟩ := except_bind_ok h
    obtain ⟨name, hname, h⟩ := except_bind_ok h
    obtain ⟨dmin, hdmin, h⟩ := except_bind_ok h
    obtain ⟨dmax, hdmax, h⟩ := except_bind_ok h
    obtain ⟨cad, hcad, h⟩ := except_bind_ok h
    obtain ⟨missV, hmissV, h⟩ := except_bind_ok h
    obtain ⟨velV, hvelV, h⟩ := except_bind_ok h
    obtain ⟨url, hurl, h⟩ := except_bind_ok h
    right
    exact ⟨ish, ca, miss, vel, name, dmin, dmax, cad, missV, velV, url, hish,
      Bool.eq_false_iff.mpr hc, hca, hm, hv, hmissV, hvelV, (Except.ok.inj h).symm⟩

/-- Fixture: a hazardous near-Earth object with no diameter or close-approach
data. -/
def neoObj1 : Json := .obj [("name", .str "A1"),
  ("is_potentially_hazardous_asteroid", .bool true),
  ("nasa_jpl_url", .str "u1")]

/-- The flattened item produced from `neoObj1` under date 2024-01-01. -/
def neoItem1 : Json := .obj [("name", .str "A1"),
  ("is_potentially_hazardous", .bool true),
  ("estimated_diameter_m", .obj [("min", .null), ("max", .null)]),
  ("close_approach_date", .str "2024-01-01"),
  ("miss_distance_km", .null),
  ("relative_velocity_kmh", .null),
  ("nasa_jpl_url", .str "u1")]

/-- Fixture: an upstream NEO feed with a single object on one date. -/
def fetchNeo1 : FetchFn := fun _ _ =>
  .ok (.obj [("near_earth_objects", .obj [("2024-01-01", .arr [neoObj1])])])

/-- Counterexample for C3: with `limit = 0` the call succeeds and returns one
item, so the returned items list is not of length at most `limit`; the code
truncates with `flat[: max(1, limit)]`, keeping at least one item. -/
theorem c3_counterexample :
    (nasa_neows_feed env0 fetchNeo1 "2024-01-01" "2024-01-02" false 0).lookupKey "ok"
      = some (Json.bool true)
    ∧ ((itemsList (nasa_neows_feed env0 fetchNeo1 "2024-01-01" "2024-01-02" false 0)).length : Int) = 1
    ∧ ¬ (((itemsList (nasa_neows_feed env0 fetchNeo1 "2024-01-01" "2024-01-02" false 0)).length : Int) ≤ 0) := by
  refine ⟨rfl, rfl, ?_⟩
  have h : (itemsList (nasa_neows_feed env0 fetchNeo1 "2024-01-01" "2024-01-02" false 0)).length = 1 := rfl
  omega

/-- C3 amended: for every successful `nasa_neows_feed` call, `count` equals the
number of flattened, hazardous-filtered objects, independent of `limit`; the
returned `items` list is the prefix `flat.take (max 1 limit)` of that flattened
list, so its length is at most `max 1 limit` (hence at most `limit` whenever
`limit ≥ 1`; the unamended bound fails only for `limit ≤ 0`, see the
counterexample) and at most `count`. -/
theorem c3_neo_count_take (env : Env) (fetch : FetchFn) (sd ed : String) (hz : Bool)
    (limit limit2 : Int) (r : Json)
    (hr : nasa_neows_feed env fetch sd ed hz limit = r)
    (hok : r.lookupKey "ok" = some (Json.bool true)) :
    ∃ flat, neoFlatOf env fetch sd ed hz = .ok flat
      ∧ r.lookupKey "count" = some (.num (flat.length : ℚ))
      ∧ itemsList r = flat.take (max 1 limit).toNat
      ∧ (itemsList r).length ≤ (max 1 limit).toNat
      ∧ (itemsList r).length ≤ flat.length
      ∧ (1 ≤ limit → ((itemsList r).length : Int) ≤ limit)
      ∧ (nasa_neows_feed env fetch sd ed hz limit2).lookupKey "count" = some (.num (flat.length : ℚ)) := by
  cases h : nasa_neows_feed_body env fetch sd ed hz limit with
  | error e =>
    have hre : r = _err e := by rw [← hr]; unfold nasa_neows_feed; rw [h]
    rw [hre] at hok
    exact (not_ok_err hok).elim
  | ok v =>
    obtain ⟨flat, hflat, rfl⟩ := neo_body_ok h
    have hrv : r = mkNeoSuccess sd ed hz limit flat := by
      rw [← hr]; unfold nasa_neows_feed; rw [h]
    subst hrv
    have hlen : (itemsList (mkNeoSuccess sd ed hz limit flat)).length
        = min (max 1 limit).toNat flat.length := by
      show (flat.take (max 1 limit).toNat).length = _
      exact List.length_take _ _
    refine ⟨flat, hflat, rfl, rfl, ?_, ?_, ?_, ?_⟩
    · omega
    · omega
    · intro hl; omega
    · have h2 : nasa_neows_feed env fetch sd ed hz limit2 = mkNeoSuccess sd ed hz limit2 flat := by
        unfold nasa_neows_feed nasa_neows_feed_body
        rw [hflat]
        rfl
      rw [h2]
      rfl

/-- Witness for C3 amended: the single-object fixture with `limit = 5` reports
`count = 1` and returns exactly the flattened item, and `count` is unchanged
under `limit = 7`. -/
theorem c3_witness :
    (nasa_neows_feed env0 fetchNeo1 "2024-01-01" "2024-01-02" false 5).lookupKey "count"
      = some (Json.num 1)
    ∧ itemsList (nasa_neows_feed env0 fetchNeo1 "2024-01-01" "2024-01-02" false 5) = [neoItem1]
    ∧ (nasa_neows_feed env0 fetchNeo1 "2024-01-01" "2024-01-02" false 7).lookupKey "count"
      = some (Json.num 1) := by
  obtain ⟨flat, hflat, hcount, hitems, -, -, -, hind⟩ :=
    c3_neo_count_take env0 fetchNeo1 "2024-01-01" "2024-01-02" false 5 7 _ rfl rfl
  have hf : flat = [neoItem1] :=
    Except.ok.inj (hflat.symm.trans
      (rfl : neoFlatOf env0 fetchNeo1 "2024-01-01" "2024-01-02" false = Except.ok [neoItem1]))
  subst hf
  exact ⟨hcount, hitems, hind⟩

/-- Every item flattened from one date's objects under the hazardous filter is
marked hazardous. -/
theorem neoFlattenDate_hazardous {d : String} (objs : List Json) :
    ∀ {flat}, neoFlattenDate true d objs = .ok flat →
      ∀ item ∈ flat, item.lookupKey "is_potentially_hazardous" = some (Json.bool true) := by
  induction objs with
  | nil =>
    intro flat h item hm
    rw [← Except.ok.inj h] at hm
    simp at hm
  | cons o os ih =>
    intro flat h item hm
    unfold neoFlattenDate at h
    obtain ⟨x, hx, h⟩ := except_bind_ok h
    obtain ⟨rest, hrest, h⟩ := except_bind_ok h
    rw [← Except.ok.inj h] at hm
    rcases List.mem_append.mp hm with hm | hm
    · rcases neoFlattenObj_ok_shape hx with rfl |
        ⟨ish, ca, miss, vel, name, dmin, dmax, cad, missV, velV, url,
          hish, hcond, hca, hm291, hv, hmissV, hvelV, rfl⟩
      · simp at hm
      · have htr : ish.truthy = true := by
          cases hh : ish.truthy
          · rw [hh] at hcond; simp at hcond
          · rfl
        have : item = Json.obj [("name", name),
            ("is_potentially_hazardous", .bool ish.truthy),
            ("estimated_diameter_m", .obj [("min", dmin), ("max", dmax)]),
            ("close_approach_date", pyOr cad (.str d)),
            ("miss_distance_km", missV),
            ("relative_velocity_kmh", velV),
            ("nasa_jpl_url", url)] := List.mem_singleton.mp hm
        subst this
        rw [htr]
        rfl
    · exact ih hrest item hm

/-- Every item flattened from the whole by-date mapping under the hazardous
filter is marked hazardous. -/
theorem neoFlatten_hazardous (pairs : List (String × Json)) :
    ∀ {flat}, neoFlatten true pairs = .ok flat →
      ∀ item ∈ flat, item.lookupKey "is_potentially_hazardous" = some (Json.bool true) := by
  induction pairs with
  | nil =>
    intro flat h item hm
    rw [← Except.ok.inj h] at hm
    simp at hm
  | cons p rest ih =>
    intro flat h item hm
    obtain ⟨d, arrv⟩ := p
    unfold neoFlatten at h
    obtain ⟨objs, _, h⟩ := except_bind_ok h
    obtain ⟨here, hhere, h⟩ := except_bind_ok h
    obtain ⟨more, hmore, h⟩ := except_bind_ok h
    rw [← Except.ok.inj h] at hm
    rcases List.mem_append.mp hm with hm | hm
    · exact neoFlattenDate_hazardous objs hhere item hm
    · exact ih hmore item hm

/-- C5: For every successful `nasa_neows_feed` call with `hazardous_only = true`,
every item in the returned `items` list has `is_potentially_hazardous = true`. -/
theorem c5_hazardous_only (env : Env) (fetch : FetchFn) (sd ed : String)
    (limit : Int) (r : Json)
    (hr : nasa_neows_feed env fetch sd ed true limit = r)
    (hok : r.lookupKey "ok" = some (Json.bool true)) :
    ∀ item ∈ itemsList r, item.lookupKey "is_potentially_hazardous" = some (Json.bool true) := by
  cases h : nasa_neows_feed_body env fetch sd ed true limit with
  | error e =>
    have hre : r = _err e := by rw [← hr]; unfold nasa_neows_feed; rw [h]
    rw [hre] at hok
    exact (not_ok_err hok).elim
  | ok v =>
    obtain ⟨flat, hflat, rfl⟩ := neo_body_ok h
    have hrv : r = mkNeoSuccess sd ed true limit flat := by
      rw [← hr]; unfold nasa_neows_feed; rw [h]
    subst hrv
    intro item hm
    have hm2 : item ∈ flat.take (max 1 limit).toNat := hm
    have hm3 : item ∈ flat := (List.take_sublist _ _).subset hm2
    unfold neoFlatOf at hflat
    obtain ⟨data, _, hflat⟩ := except_bind_ok hflat
    obtain ⟨nb, _, hflat⟩ := except_bind_ok hflat
    obtain ⟨pairs, _, hflat⟩ := except_bind_ok hflat
    exact neoFlatten_hazardous pairs hflat item hm3

/-- Fixture: a non-hazardous near-Earth object. -/
def neoObjSafe : Json := .obj [("name", .str "S1"),
  ("is_potentially_hazardous_asteroid", .bool false)]

/-- The flattened item produced from `neoObj1` under date 2024-01-02. -/
def neoItem1b : Json := .obj [("name", .str "A1"),
  ("is_potentially_hazardous", .bool true),
  ("estimated_diameter_m", .obj [("min", .null), ("max", .null)]),
  ("close_approach_date", .str "2024-01-02"),
  ("miss_distance_km", .null),
  ("relative_velocity_kmh", .null),
  ("nasa_jpl_url", .str "u1")]

/-- Fixture: an upstream NEO feed with two dates, each holding one hazardous and
one non-hazardous object. -/
def fetchNeoMix : FetchFn := fun _ _ =>
  .ok (.obj [("near_earth_objects", .obj [
    ("2024-01-01", .arr [neoObj1, neoObjSafe]),
    ("2024-01-02", .arr [neoObjSafe, neoObj1])])])

/-- Witness for C5: the mixed two-date fixture with `hazardous_only = true`
reports `count = 2` and both returned items are hazardous. -/
theorem c5_witness :
    (nasa_neows_feed env0 fetchNeoMix "2024-01-01" "2024-01-02" true 20).lookupKey "count"
      = some (Json.num 2)
    ∧ itemsList (nasa_neows_feed env0 fetchNeoMix "2024-01-01" "2024-01-02" true 20)
      = [neoItem1, neoItem1b]
    ∧ neoItem1.lookupKey "is_potentially_hazardous" = some (Json.bool true)
    ∧ neoItem1b.lookupKey "is_potentially_hazardous" = some (Json.bool true) := by
  refine ⟨rfl, rfl, ?_, ?_⟩
  · exact c5_hazardous_only env0 fetchNeoMix "2024-01-01" "2024-01-02" 20 _ rfl rfl
      neoItem1 (List.Mem.head _)
  · exact c5_hazardous_only env0 fetchNeoMix "2024-01-01" "2024-01-02" 20 _ rfl rfl
      neoItem1b (List.Mem.tail _ (List.Mem.head _))

/-- C8: In the `nasa_neows_feed` flattening, the `miss_distance_km` and
`relative_velocity_kmh` fields of an emitted item are produced by `float`
parsing of the extracted upstream values when these are truthy, and are null
for every falsy or absent upstream value — missing key, null, empty string and
zero are all falsy (last three conjuncts) — rather than the number zero. -/
theorem c8_neo_float_fields (hz : Bool) (d : String) (o item ca miss vel : Json)
    (h : neoFlattenObj hz d o = .ok [item])
    (hca : neoCa o = .ok ca)
    (hm : neoMissRaw ca = .ok miss)
    (hv : neoVelRaw ca = .ok vel) :
    (miss.truthy = false → item.lookupKey "miss_distance_km" = some Json.null)
    ∧ (∀ q, pyFloat miss = .ok q → miss.truthy = true →
        item.lookupKey "miss_distance_km" = some (Json.num q))
    ∧ (vel.truthy = false → item.lookupKey "relative_velocity_kmh" = some Json.null)
    ∧ (∀ q, pyFloat vel = .ok q → vel.truthy = true →
        item.lookupKey "relative_velocity_kmh" = some (Json.num q))
    ∧ Json.null.truthy = false ∧ (Json.str "").truthy = false
    ∧ (Json.num 0).truthy = false := by
  rcases neoFlattenObj_ok_shape h with hnil |
    ⟨ish, ca2, miss2, vel2, name, dmin, dmax, cad, missV, velV, url,
      hish, hcond, hca2, hm2, hv2, hmissV, hvelV, hitem⟩
  · exact absurd hnil (by simp)
  · have hceq : ca2 = ca := Except.ok.inj (hca2.symm.trans hca)
    subst hceq
    have hmeq : miss2 = miss := Except.ok.inj (hm2.symm.trans hm)
    subst hmeq
    have hveq : vel2 = vel := Except.ok.inj (hv2.symm.trans hv)
    subst hveq
    have hieq : item = Json.obj [("name", name),
        ("is_potentially_hazardous", .bool ish.truthy),
        ("estimated_diameter_m", .obj [("min", dmin), ("max", dmax)]),
        ("close_approach_date", pyOr cad (.str d)),
        ("miss_distance_km", missV),
        ("relative_velocity_kmh", velV),
        ("nasa_jpl_url", url)] := by
      injection hitem
    subst hieq
    refine ⟨?_, ?_, ?_, ?_, rfl, rfl, rfl⟩
    · intro hf
      unfold neoNumOrNull at hmissV
      rw [hf] at hmissV
      simp at hmissV
      have hn : Json.null = missV := Except.ok.inj hmissV
      show some missV = some Json.null
      rw [← hn]
    · intro q hq ht
      unfold neoNumOrNull at hmissV
      rw [ht] at hmissV
      simp only [if_pos rfl] at hmissV
      rw [hq] at hmissV
      have : Json.num q = missV := Except.ok.inj hmissV
      show some missV = some (Json.num q)
      rw [← this]
    · intro hf
      unfold neoNumOrNull at hvelV
      rw [hf] at hvelV
      simp at hvelV
      have hn : Json.null = velV := Except.ok.inj hvelV
      show some velV = some Json.null
      rw [← hn]
    · intro q hq ht
      unfold neoNumOrNull at hvelV
      rw [ht] at hvelV
      simp only [if_pos rfl] at hvelV
      rw [hq] at hvelV
      have : Json.num q = velV := Except.ok.inj hvelV
      show some velV = some (Json.num q)
      rw [← this]

/-- Fixture: a near-Earth object whose first close-approach event has a truthy
miss distance string and an empty (falsy) velocity string. -/
def neoObj2 : Json := .obj [("name", .str "A2"),
  ("is_potentially_hazardous_asteroid", .bool false),
  ("close_approach_data", .arr [.obj [
    ("close_approach_date", .str "2024-01-01"),
    ("miss_distance", .obj [("kilometers", .str "123")]),
    ("relative_velocity", .obj [("kilometers_per_hour", .str "")])]]),
  ("nasa_jpl_url", .null)]

/-- The first close-approach record of `neoObj2` after defaulting. -/
def neoCaFix : Json := .obj [
  ("close_approach_date", .str "2024-01-01"),
  ("miss_distance", .obj [("kilometers", .str "123")]),
  ("relative_velocity", .obj [("kilometers_per_hour", .str "")])]

/-- The flattened item produced from `neoObj2` under date 2024-01-01. -/
def neoItem2 : Json := .obj [("name", .str "A2"),
  ("is_potentially_hazardous", .bool false),
  ("estimated_diameter_m", .obj [("min", .null), ("max", .null)]),
  ("close_approach_date", .str "2024-01-01"),
  ("miss_distance_km", .num 123),
  ("relative_velocity_kmh", .null),
  ("nasa_jpl_url", .null)]

/-- Witness for C8: the truthy miss-distance string "123" of the fixture parses to
the number 123, while the empty (falsy) velocity string yields null. -/
theorem c8_witness :
    neoItem2.lookupKey "miss_distance_km" = some (Json.num 123)
    ∧ neoItem2.lookupKey "relative_velocity_kmh" = some Json.null := by
  have h := c8_neo_float_fields false "2024-01-01" neoObj2 neoItem2 neoCaFix
    (.str "123") (.str "") rfl rfl rfl rfl
  exact ⟨h.2.1 123 rfl rfl, h.2.2.1 rfl⟩

/-- C4: For every successful `nasa_donki_recent_events` call with
`event_type = "ALL"`, `event_types` is `["FLR","CME","GST"]`; the returned
`events` are the first `limit` elements (the clamped `limit` variable of the code,
`max limit 1`) of the stably sorted combined list, sorted by `start_time`
descending in Python string order with null/missing start times rendered as the
empty string and so sorted last; hence `len(events) ≤ limit`. The hypothesis
`hstr` restricts to events whose derived start time is a string or falsy:
otherwise the CPython `sorted` key comparison itself raises `TypeError` (aborting
the call) or compares non-strings, which `donkiKeyStr` does not model. -/
theorem c4_donki_all_sorted (env : Env) (fetch : FetchFn) (iso : Int → String)
    (today : Int) (days limit : Int) (r : Json) (evs : List Json)
    (hr : nasa_donki_recent_events env fetch iso today "ALL" days limit = r)
    (hok : r.lookupKey "ok" = some (Json.bool true))
    (hevs : donkiCollect fetch (_key env) (iso (today - max days 1)) (iso today)
      (donkiTypes "ALL") = .ok evs)
    (hstr : ∀ e ∈ evs, strOrFalsy (donkiKey e) = true) :
    r.lookupKey "event_types" = some (.arr [.str "FLR", .str "CME", .str "GST"])
    ∧ eventsList r = (sortDesc evs).take (max limit 1).toNat
    ∧ eventsSortedDesc (eventsList r)
    ∧ List.Perm (sortDesc evs) evs
    ∧ (eventsList r).length ≤ (max limit 1).toNat
    ∧ (∀ e ∈ evs, (donkiKey e).truthy = false → donkiKeyStr e = "") := by
  cases h : nasa_donki_recent_events_body env fetch iso today "ALL" days limit with
  | error e =>
    have hre : r = _err e := by rw [← hr]; unfold nasa_donki_recent_events; rw [h]
    rw [hre] at hok
    exact (not_ok_err hok).elim
  | ok v =>
    obtain ⟨evs2, hevs2, rfl⟩ := donki_body_ok h
    have heq : evs2 = evs := Except.ok.inj (hevs2.symm.trans hevs)
    subst heq
    have hrv : r = mkDonkiSuccess (iso (today - max days 1)) (iso today)
        (donkiTypes "ALL") (max limit 1) evs2 := by
      rw [← hr]; unfold nasa_donki_recent_events; rw [h]
    subst hrv
    have hlen : (eventsList (mkDonkiSuccess (iso (today - max days 1)) (iso today)
        (donkiTypes "ALL") (max limit 1) evs2)).length
        = min (max limit 1).toNat (sortDesc evs2).length := by
      show ((sortDesc evs2).take (max limit 1).toNat).length = _
      exact List.length_take _ _
    refine ⟨rfl, rfl, ?_, sortDesc_perm evs2, by omega, ?_⟩
    · show List.Sorted _ ((sortDesc evs2).take (max limit 1).toNat)
      exact (sortDesc_sorted evs2).sublist (List.take_sublist _ _)
    · intro e _ hfalse
      exact donkiKeyStr_of_falsy hfalse

/-- C10: for every successful `nasa_donki_recent_events` call, `count` equals
the length of the returned, already-truncated `events` list — at most the
clamped `limit` of the code (`max limit 1`, equal to `limit` whenever `limit ≥ 1`) —
so unlike `nasa_neows_feed` it does not report the pre-truncation size. -/
theorem c10_donki_count (env : Env) (fetch : FetchFn) (iso : Int → String)
    (today : Int) (et : String) (days limit : Int) (r : Json)
    (hr : nasa_donki_recent_events env fetch iso today et days limit = r)
    (hok : r.lookupKey "ok" = some (Json.bool true)) :
    r.lookupKey "count" = some (.num ((eventsList r).length : ℚ))
    ∧ (eventsList r).length ≤ (max limit 1).toNat
    ∧ (1 ≤ limit → ((eventsList r).length : Int) ≤ limit) := by
  cases h : nasa_donki_recent_events_body env fetch iso today et days limit with
  | error e =>
    have hre : r = _err e := by rw [← hr]; unfold nasa_donki_recent_events; rw [h]
    rw [hre] at hok
    exact (not_ok_err hok).elim
  | ok v =>
    obtain ⟨evs, hevs, rfl⟩ := donki_body_ok h
    have hrv : r = mkDonkiSuccess (iso (today - max days 1)) (iso today)
        (donkiTypes et) (max limit 1) evs := by
      rw [← hr]; unfold nasa_donki_recent_events; rw [h]
    subst hrv
    have hlen : (eventsList (mkDonkiSuccess (iso (today - max days 1)) (iso today)
        (donkiTypes et) (max limit 1) evs)).length
        = min (max limit 1).toNat (sortDesc evs).length := by
      show ((sortDesc evs).take (max limit 1).toNat).length = _
      exact List.length_take _ _
    refine ⟨rfl, by omega, fun hl => by omega⟩

/-- Fixture: a raw DONKI flare with begin time 2024-03-02. -/
def donkiRawFLR1 : Json := .obj [("flrID", .str "F1"),
  ("beginTime", .str "2024-03-02T10:00Z"), ("link", .str "l1")]

/-- Fixture: a raw DONKI flare with begin time 2024-03-01. -/
def donkiRawFLR2 : Json := .obj [("flrID", .str "F2"),
  ("beginTime", .str "2024-03-01T09:00Z")]

/-- Fixture: a raw DONKI coronal mass ejection with start time 2024-03-03. -/
def donkiRawCME1 : Json := .obj [("activityID", .str "C1"),
  ("startTime", .str "2024-03-03T00:00Z")]

/-- Fixture: a raw DONKI geomagnetic storm with no time field at all. -/
def donkiRawGST1 : Json := .obj [("gstID", .str "G1")]

/-- Fixture: an upstream serving two flares (out of order), one CME and one
timeless storm. -/
def fetchDonkiAll : FetchFn := fun url _ =>
  if url = donkiUrl "FLR" then .ok (.arr [donkiRawFLR2, donkiRawFLR1])
  else if url = donkiUrl "CME" then .ok (.arr [donkiRawCME1])
  else if url = donkiUrl "GST" then .ok (.arr [donkiRawGST1])
  else .error ⟨"HTTPStatusError", "Client error 404 Not Found"⟩

/-- Witness for C4: on the concrete fixture the event types are the three base
types and the returned events are sorted descending with the timeless storm
last. -/
theorem c4_witness :
    (nasa_donki_recent_events env0 fetchDonkiAll iso0 0 "ALL" 3 20).lookupKey "event_types"
      = some (.arr [.str "FLR", .str "CME", .str "GST"])
    ∧ eventsSortedDesc (eventsList (nasa_donki_recent_events env0 fetchDonkiAll iso0 0 "ALL" 3 20))
    ∧ (eventsList (nasa_donki_recent_events env0 fetchDonkiAll iso0 0 "ALL" 3 20)).length
      ≤ ((max (20 : Int) 1)).toNat := by
  have h := c4_donki_all_sorted env0 fetchDonkiAll iso0 0 3 20 _ _ rfl rfl rfl (by decide)
  exact ⟨h.1, h.2.2.1, h.2.2.2.2.1⟩

/-- Witness for C10: with `limit = 2` the fixture reports `count = 2`, the
length of the truncated events list, not the pre-truncation total of 4. -/
theorem c10_witness :
    (nasa_donki_recent_events env0 fetchDonkiAll iso0 0 "ALL" 3 2).lookupKey "count"
      = some (Json.num 2)
    ∧ (eventsList (nasa_donki_recent_events env0 fetchDonkiAll iso0 0 "ALL" 3 2)).length = 2 := by
  have h := c10_donki_count env0 fetchDonkiAll iso0 0 "ALL" 3 2 _ rfl rfl
  exact ⟨h.1, rfl⟩

/-- C9: In `nasa_donki_recent_events`, a requested type whose upstream response
is not a list contributes nothing and processing continues with the remaining
types (first conjunct); but an exception raised during the fetch or
per-event mapping aborts the whole fan-out (second and third conjuncts), also
when earlier types already contributed events (fourth conjunct), and a failed
body yields the error envelope, discarding those contributions (fifth
conjunct). -/
theorem c9_donki_skip_vs_abort (env : Env) (fetch : FetchFn) (iso : Int → String)
    (today : Int) (key ss es t : String) (ts : List String) (d : Json)
    (raws evs : List Json) (et : String) (days limit : Int) (e : PyExc) :
    (fetch (donkiUrl t) (donkiParams ss es key) = .ok d → (∀ xs, d ≠ .arr xs) →
      donkiCollect fetch key ss es (t :: ts) = donkiCollect fetch key ss es ts)
    ∧ (fetch (donkiUrl t) (donkiParams ss es key) = .error e →
      donkiCollect fetch key ss es (t :: ts) = .error e)
    ∧ (fetch (donkiUrl t) (donkiParams ss es key) = .ok (.arr raws) →
      List.mapM (donkiMapRaw t) raws = .error e →
      donkiCollect fetch key ss es (t :: ts) = .error e)
    ∧ (fetch (donkiUrl t) (donkiParams ss es key) = .ok (.arr raws) →
      List.mapM (donkiMapRaw t) raws = .ok evs →
      donkiCollect fetch key ss es ts = .error e →
      donkiCollect fetch key ss es (t :: ts) = .error e)
    ∧ (nasa_donki_recent_events_body env fetch iso today et days limit = .error e →
      nasa_donki_recent_events env fetch iso today et days limit = _err e) := by
  refine ⟨?_, ?_, ?_, ?_, ?_⟩
  · intro hf hnl
    simp only [donkiCollect]
    rw [hf]
    cases d with
    | arr xs => exact absurd rfl (hnl xs)
    | null => rfl
    | bool b => rfl
    | num q => rfl
    | str s => rfl
    | obj fs => rfl
  · intro hf
    simp only [donkiCollect]
    rw [hf]
    rfl
  · intro hf hmap
    have hstep : donkiCollect fetch key ss es (t :: ts)
        = (List.mapM (donkiMapRaw t) raws >>= fun evs2 =>
            donkiCollect fetch key ss es ts >>= fun rest => pure (evs2 ++ rest)) := by
      simp only [donkiCollect]
      rw [hf]
      rfl
    rw [hstep, hmap]
    rfl
  · intro hf hmap hrest
    have hstep : donkiCollect fetch key ss es (t :: ts)
        = (List.mapM (donkiMapRaw t) raws >>= fun evs2 =>
            donkiCollect fetch key ss es ts >>= fun rest => pure (evs2 ++ rest)) := by
      simp only [donkiCollect]
      rw [hf]
      rfl
    rw [hstep, hmap]
    show (donkiCollect fetch key ss es ts >>= fun rest => pure (evs ++ rest)) = .error e
    rw [hrest]
    rfl
  · intro h
    unfold nasa_donki_recent_events
    rw [h]

/-- Fixture: an upstream whose FLR response is a dict (not a list) while CME and
GST respond with singleton lists. -/
def fetchDonkiSkip : FetchFn := fun url _ =>
  if url = donkiUrl "FLR" then .ok (.obj [("detail", .str "rate limited")])
  else if url = donkiUrl "CME" then .ok (.arr [donkiRawCME1])
  else .ok (.arr [donkiRawGST1])

/-- Fixture: an upstream whose FLR response is a good list but whose later
requests time out. -/
def fetchDonkiAbort : FetchFn := fun url _ =>
  if url = donkiUrl "FLR" then .ok (.arr [donkiRawFLR1])
  else .error ⟨"ConnectTimeout", "timed out"⟩

/-- The normalized event mapped from `donkiRawFLR1`. -/
def donkiEvFLR1 : Json := .obj [("type", .str "FLR"), ("id", .str "F1"),
  ("start_time", .str "2024-03-02T10:00Z"), ("source", .null), ("link", .str "l1")]

/-- Witness for C9: with the non-list FLR response the FLR contribution is
skipped and the call still succeeds with the two remaining events; with the
timing-out upstream the whole fan-out aborts after FLR contributed, and the
adapter returns the error envelope. -/
theorem c9_witness :
    donkiCollect fetchDonkiSkip "DEMO_KEY" "s" "e" ["FLR", "CME", "GST"]
      = donkiCollect fetchDonkiSkip "DEMO_KEY" "s" "e" ["CME", "GST"]
    ∧ (nasa_donki_recent_events env0 fetchDonkiSkip iso0 0 "ALL" 3 20).lookupKey "ok"
      = some (Json.bool true)
    ∧ (nasa_donki_recent_events env0 fetchDonkiSkip iso0 0 "ALL" 3 20).lookupKey "count"
      = some (Json.num 2)
    ∧ donkiCollect fetchDonkiAbort "DEMO_KEY" "s" "e" ["FLR", "CME", "GST"]
      = .error ⟨"ConnectTimeout", "timed out"⟩
    ∧ nasa_donki_recent_events env0 fetchDonkiAbort iso0 0 "ALL" 3 20
      = .obj [("ok", .bool false), ("error", .str "ConnectTimeout: timed out")] := by
  refine ⟨?_, rfl, rfl, ?_, ?_⟩
  · exact (c9_donki_skip_vs_abort env0 fetchDonkiSkip iso0 0 "DEMO_KEY" "s" "e" "FLR"
      ["CME", "GST"] (.obj [("detail", .str "rate limited")]) [] [] "ALL" 3 20
      ⟨"ConnectTimeout", "timed out"⟩).1 rfl (fun xs h => Json.noConfusion h)
  · exact (c9_donki_skip_vs_abort env0 fetchDonkiAbort iso0 0 "DEMO_KEY" "s" "e" "FLR"
      ["CME", "GST"] .null [donkiRawFLR1] [donkiEvFLR1] "ALL" 3 20
      ⟨"ConnectTimeout", "timed out"⟩).2.2.2.1 rfl rfl
      ((c9_donki_skip_vs_abort env0 fetchDonkiAbort iso0 0 "DEMO_KEY" "s" "e" "CME"
        ["GST"] .null [] [] "ALL" 3 20 ⟨"ConnectTimeout", "timed out"⟩).2.1 rfl)
  · exact (c9_donki_skip_vs_abort env0 fetchDonkiAbort iso0 0 "DEMO_KEY" "s" "e" "FLR"
      [] .null [] [] "ALL" 3 20 ⟨"ConnectTimeout", "timed out"⟩).2.2.2.2 rfl

/-- C6: every numeric limit/page parameter is clamped to a minimum of 1: a
value `≤ 0` makes the adapter behave exactly as the value 1 (DONKI `days` and
`limit`, media `page`, NEO `limit`), and the truncation therefore never yields
an empty slice when matching results exist (last two conjuncts). -/
theorem c6_clamp_min_one (env : Env) (fetch : FetchFn) (iso : Int → String)
    (today : Int) (et : String) (days limit page nlimit : Int) (q mt : String)
    (ys ye : Option Int) (sd ed : String) (hz : Bool) :
    (days ≤ 0 → nasa_donki_recent_events env fetch iso today et days limit
      = nasa_donki_recent_events env fetch iso today et 1 limit)
    ∧ (limit ≤ 0 → nasa_donki_recent_events env fetch iso today et days limit
      = nasa_donki_recent_events env fetch iso today et days 1)
    ∧ (page ≤ 0 → nasa_media_search fetch q mt ys ye page
      = nasa_media_search fetch q mt ys ye 1)
    ∧ (nlimit ≤ 0 → nasa_neows_feed env fetch sd ed hz nlimit
      = nasa_neows_feed env fetch sd ed hz 1)
    ∧ (∀ flat r, neoFlatOf env fetch sd ed hz = .ok flat → flat ≠ [] →
        nasa_neows_feed env fetch sd ed hz nlimit = r → itemsList r ≠ [])
    ∧ (∀ evs r, donkiCollect fetch (_key env) (iso (today - max days 1)) (iso today)
        (donkiTypes et) = .ok evs → evs ≠ [] →
        nasa_donki_recent_events env fetch iso today et days limit = r →
        eventsList r ≠ []) := by
  refine ⟨?_, ?_, ?_, ?_, ?_, ?_⟩
  · intro hd
    have hm : max days 1 = max 1 1 := by omega
    unfold nasa_donki_recent_events nasa_donki_recent_events_body
    rw [hm]
  · intro hl
    have hm : max limit 1 = max 1 1 := by omega
    unfold nasa_donki_recent_events nasa_donki_recent_events_body
    rw [hm]
  · intro hp
    have hm : max page 1 = max 1 1 := by omega
    unfold nasa_media_search nasa_media_search_body
    rw [hm]
  · intro hn
    have hm : max 1 nlimit = max 1 1 := by omega
    unfold nasa_neows_feed nasa_neows_feed_body mkNeoSuccess
    rw [hm]
  · intro flat r hflat hne hr
    have hb : nasa_neows_feed_body env fetch sd ed hz nlimit
        = .ok (mkNeoSuccess sd ed hz nlimit flat) := by
      unfold nasa_neows_feed_body
      rw [hflat]
      rfl
    have hrv : r = mkNeoSuccess sd ed hz nlimit flat := by
      rw [← hr]; unfold nasa_neows_feed; rw [hb]
    subst hrv
    show flat.take (max 1 nlimit).toNat ≠ []
    intro hemp
    rcases List.take_eq_nil_iff.mp hemp with hz0 | hz0
    · omega
    · exact hne hz0
  · intro evs r hevs hne hr
    have hb : nasa_donki_recent_events_body env fetch iso today et days limit
        = .ok (mkDonkiSuccess (iso (today - max days 1)) (iso today)
            (donkiTypes et) (max limit 1) evs) := by
      unfold nasa_donki_recent_events_body
      rw [hevs]
      rfl
    have hrv : r = mkDonkiSuccess (iso (today - max days 1)) (iso today)
        (donkiTypes et) (max limit 1) evs := by
      rw [← hr]; unfold nasa_donki_recent_events; rw [hb]
    subst hrv
    show (sortDesc evs).take (max limit 1).toNat ≠ []
    intro hemp
    rcases List.take_eq_nil_iff.mp hemp with hz0 | hz0
    · omega
    · have := sortDesc_length evs
      rw [hz0] at this
      exact hne (List.eq_nil_of_length_eq_zero this.symm)

/-- Witness for C6: zero and negative limit/page/days values produce the same
results as the value 1 on concrete fixtures, and the single-item NEO fixture
with `limit = 0` still returns a non-empty items list. -/
theorem c6_witness :
    nasa_donki_recent_events env0 fetchDonkiAll iso0 0 "ALL" 0 20
      = nasa_donki_recent_events env0 fetchDonkiAll iso0 0 "ALL" 1 20
    ∧ nasa_donki_recent_events env0 fetchDonkiAll iso0 0 "ALL" 3 (-2)
      = nasa_donki_recent_events env0 fetchDonkiAll iso0 0 "ALL" 3 1
    ∧ nasa_media_search fetch404 "m" "image" none none 0
      = nasa_media_search fetch404 "m" "image" none none 1
    ∧ nasa_neows_feed env0 fetchNeo1 "2024-01-01" "2024-01-02" false (-5)
      = nasa_neows_feed env0 fetchNeo1 "2024-01-01" "2024-01-02" false 1
    ∧ itemsList (nasa_neows_feed env0 fetchNeo1 "2024-01-01" "2024-01-02" false 0) ≠ [] := by
  refine ⟨?_, ?_, ?_, ?_, ?_⟩
  · exact (c6_clamp_min_one env0 fetchDonkiAll iso0 0 "ALL" 0 20 1 1 "m" "image"
      none none "x" "y" false).1 (by omega)
  · exact (c6_clamp_min_one env0 fetchDonkiAll iso0 0 "ALL" 3 (-2) 1 1 "m" "image"
      none none "x" "y" false).2.1 (by omega)
  · exact (c6_clamp_min_one env0 fetch404 iso0 0 "ALL" 3 20 0 1 "m" "image"
      none none "x" "y" false).2.2.1 (by omega)
  · exact (c6_clamp_min_one env0 fetchNeo1 iso0 0 "ALL" 3 20 1 (-5) "m" "image"
      none none "2024-01-01" "2024-01-02" false).2.2.2.1 (by omega)
  · exact (c6_clamp_min_one env0 fetchNeo1 iso0 0 "ALL" 3 20 1 0 "m" "image"
      none none "2024-01-01" "2024-01-02" false).2.2.2.2.1 [neoItem1] _ rfl
      (List.cons_ne_nil _ _) rfl
